import Mathlib

/-!
Shallow embedding of the deferred hardware-command audio manager
(`bn::audio_manager`): the command value type, the shadow state, the
public operations with their fatal precondition asserts (modelled as
`Option`, `none` = fatal assertion), and the frame pump
(`update` / `commit` / `stop`).  Hardware driver interaction is modelled
as a trace of driver calls; hardware-reported values are an explicit
input record.
-/

set_option autoImplicit false

namespace AudioManager

/-- The engine's fixed-point numeric type `fixed = fixed_t<12>`: a raw
integer `_value` holding the number scaled by `2 ^ 12`, exposed by the
`data()` accessor. -/
structure fixed where
  data : ℤ
deriving DecidableEq

/-- The implicit `fixed_t(int integer)` constructor: `_value = integer * scale()`
with `scale() = 2 ^ 12`. -/
def fixed.of_int (integer : ℤ) : fixed :=
  ⟨integer * 2 ^ (12 : ℕ)⟩

/-- `fixed_t` addition: raw values add. -/
def fixed.add (a b : fixed) : fixed :=
  ⟨a.data + b.data⟩

/-- The `fixed_t<Precision>(fixed_t<12> other)` conversion constructor in its
narrowing branch (`Precision < 12`, the only branch the audio manager
exercises, with precisions 10, 8, 7 and 3):
`_value = other.value() / (other.scale() / scale())`, C++ `int` division
truncating toward zero. -/
def fixed_t_data (precision : ℕ) (f : fixed) : ℤ :=
  f.data.tdiv (((2 : ℤ) ^ (12 : ℕ)).tdiv ((2 : ℤ) ^ precision))

/-- `_hw_music_volume`: music volume rescaled to a 10-fraction-bit value. -/
def hw_music_volume (volume : fixed) : ℤ :=
  fixed_t_data 10 volume

/-- `_hw_sound_volume`: sound volume rescaled to an 8-fraction-bit value,
clamped to at most 255. -/
def hw_sound_volume (volume : fixed) : ℤ :=
  min (fixed_t_data 8 volume) 255

/-- `_hw_dmg_music_volume`: DMG channel volume rescaled to a 3-fraction-bit value. -/
def hw_dmg_music_volume (volume : fixed) : ℤ :=
  fixed_t_data 3 volume

/-- `_hw_sound_speed`: sound speed rescaled to a 10-fraction-bit value,
clamped to at most 65535. -/
def hw_sound_speed (speed : fixed) : ℤ :=
  min (fixed_t_data 10 speed) 65535

/-- `_hw_sound_panning`: panning shifted by +1 (the implicit integer-to-fixed
conversion followed by fixed addition) and rescaled to a 7-fraction-bit
value, clamped to at most 255. -/
def hw_sound_panning (panning : fixed) : ℤ :=
  min (fixed_t_data 7 (panning.add (fixed.of_int 1))) 255

/-- C++ conversion of an `int` to `uint16_t` (reduction modulo 2^16). -/
def toUint16 (n : ℤ) : ℤ :=
  n % 65536

/-- C++ conversion of an `int` to `uint8_t` (reduction modulo 2^8). -/
def toUint8 (n : ℤ) : ℤ :=
  n % 256

/-- C++ conversion of an `int` to `int16_t` (wrap into [-32768, 32767]). -/
def toInt16 (n : ℤ) : ℤ :=
  (n + 32768) % 65536 - 32768

/-- The tag of a deferred audio command (`command::type`). -/
inductive CommandType where
  | MUSIC_PLAY
  | MUSIC_STOP
  | MUSIC_PAUSE
  | MUSIC_RESUME
  | MUSIC_SET_POSITION
  | MUSIC_SET_VOLUME
  | DMG_MUSIC_PLAY
  | DMG_MUSIC_STOP
  | DMG_MUSIC_PAUSE
  | DMG_MUSIC_RESUME
  | DMG_MUSIC_SET_POSITION
  | DMG_MUSIC_SET_VOLUME
  | SOUND_PLAY
  | SOUND_PLAY_EX
  | SOUND_STOP_ALL
deriving DecidableEq

/-- A deferred audio command (`audio_manager::command`): the stored fields
mirror the C++ data members `_id`, `_priority`, `_volume`, `_speed`,
`_type`, `_panning`, `_loop`. -/
structure command where
  id : ℤ
  priority : ℤ
  volume : ℤ
  speed : ℤ
  type : CommandType
  panning : ℤ
  loop : Bool
deriving DecidableEq

/-- The private `command` constructor: narrowing casts of `volume`, `speed`
and `panning` to their unsigned field widths happen here. -/
def command.make (command_type : CommandType) (id priority volume : ℤ)
    (loop : Bool) (speed panning : ℤ) : command :=
  ⟨id, priority, toUint16 volume, toUint16 speed, command_type, toUint8 panning, loop⟩

def command.music_play (itemId : ℤ) (loop : Bool) (volume : ℤ) : command :=
  command.make CommandType.MUSIC_PLAY itemId 0 volume loop 0 0

def command.music_stop : command :=
  command.make CommandType.MUSIC_STOP 0 0 0 false 0 0

def command.music_pause : command :=
  command.make CommandType.MUSIC_PAUSE 0 0 0 false 0 0

def command.music_resume : command :=
  command.make CommandType.MUSIC_RESUME 0 0 0 false 0 0

def command.music_set_position (position : ℤ) : command :=
  command.make CommandType.MUSIC_SET_POSITION position 0 0 false 0 0

def command.music_set_volume (volume : ℤ) : command :=
  command.make CommandType.MUSIC_SET_VOLUME 0 0 volume false 0 0

def command.dmg_music_play (dataPtr : ℤ) (loop : Bool) (speed : ℤ) : command :=
  command.make CommandType.DMG_MUSIC_PLAY dataPtr 0 speed loop 0 0

def command.dmg_music_stop : command :=
  command.make CommandType.DMG_MUSIC_STOP 0 0 0 false 0 0

def command.dmg_music_pause : command :=
  command.make CommandType.DMG_MUSIC_PAUSE 0 0 0 false 0 0

def command.dmg_music_resume : command :=
  command.make CommandType.DMG_MUSIC_RESUME 0 0 0 false 0 0

def command.dmg_music_set_position (pattern row : ℤ) : command :=
  command.make CommandType.DMG_MUSIC_SET_POSITION pattern 0 row false 0 0

def command.dmg_music_set_volume (left_volume right_volume : ℤ) : command :=
  command.make CommandType.DMG_MUSIC_SET_VOLUME 0 0 left_volume false right_volume 0

def command.sound_play (priority itemId : ℤ) : command :=
  command.make CommandType.SOUND_PLAY itemId (toInt16 priority) 0 false 0 0

def command.sound_play_ex (priority itemId volume speed panning : ℤ) : command :=
  command.make CommandType.SOUND_PLAY_EX itemId (toInt16 priority) volume false speed panning

def command.sound_stop_all : command :=
  command.make CommandType.SOUND_STOP_ALL 0 0 0 false 0 0

/-- One hardware driver primitive invocation (`hw` namespace of the driver). -/
inductive HwCall where
  | update_hw
  | commit_hw
  | play_music (id volume : ℤ) (loop : Bool)
  | stop_music
  | pause_music
  | resume_music
  | set_music_position (id : ℤ)
  | set_music_volume (volume : ℤ)
  | play_dmg_music (ptr volume : ℤ) (loop : Bool)
  | stop_dmg_music
  | pause_dmg_music
  | resume_dmg_music
  | set_dmg_music_position (id volume : ℤ)
  | set_dmg_music_volume (volume speed : ℤ)
  | play_sound (priority id : ℤ)
  | play_sound_ex (priority id volume speed panning : ℤ)
  | stop_all_sounds
deriving DecidableEq

/-- `command::execute()`: dispatch on the tag, invoking exactly one driver
primitive with the stored parameters. -/
def command.execute (c : command) : HwCall :=
  match c.type with
  | CommandType.MUSIC_PLAY => HwCall.play_music c.id c.volume c.loop
  | CommandType.MUSIC_STOP => HwCall.stop_music
  | CommandType.MUSIC_PAUSE => HwCall.pause_music
  | CommandType.MUSIC_RESUME => HwCall.resume_music
  | CommandType.MUSIC_SET_POSITION => HwCall.set_music_position c.id
  | CommandType.MUSIC_SET_VOLUME => HwCall.set_music_volume c.volume
  | CommandType.DMG_MUSIC_PLAY => HwCall.play_dmg_music c.id c.volume c.loop
  | CommandType.DMG_MUSIC_STOP => HwCall.stop_dmg_music
  | CommandType.DMG_MUSIC_PAUSE => HwCall.pause_dmg_music
  | CommandType.DMG_MUSIC_RESUME => HwCall.resume_dmg_music
  | CommandType.DMG_MUSIC_SET_POSITION => HwCall.set_dmg_music_position c.id c.volume
  | CommandType.DMG_MUSIC_SET_VOLUME => HwCall.set_dmg_music_volume c.volume c.speed
  | CommandType.SOUND_PLAY => HwCall.play_sound c.priority c.id
  | CommandType.SOUND_PLAY_EX => HwCall.play_sound_ex c.priority c.id c.volume c.speed c.panning
  | CommandType.SOUND_STOP_ALL => HwCall.stop_all_sounds

/-- A DMG tracker position (`bn::dmg_music_position`): pattern (order) and row.
The default constructor yields pattern 0, row 0. -/
structure DmgMusicPosition where
  pattern : ℤ
  row : ℤ
deriving DecidableEq

/-- The process-wide shadow state (`audio_manager::static_data`).  The command
queue is a bounded vector, modelled as a list together with the external
capacity `BN_CFG_AUDIO_MAX_COMMANDS`; the nullable `dmg_music_data` pointer is
an `Option` over an abstract address. -/
structure static_data where
  commands : List command
  music_volume : fixed
  dmg_music_position : DmgMusicPosition
  dmg_music_left_volume : fixed
  dmg_music_right_volume : fixed
  music_item_id : ℤ
  music_position : ℤ
  dmg_music_data : Option ℤ
  music_playing : Bool
  music_paused : Bool
  dmg_music_paused : Bool
deriving DecidableEq

/-- The initial shadow state: empty queue, zero-initialised fields, null DMG
data pointer, nothing playing. -/
def init_data : static_data :=
  ⟨[], ⟨0⟩, ⟨0, 0⟩, ⟨0⟩, ⟨0⟩, 0, 0, none, false, false, false⟩

/-- `vector::full()`: the queue holds `cap` commands. -/
def queue_full (cap : ℕ) (d : static_data) : Bool :=
  d.commands.length = cap

/-- `music_playing()`: query of the shadow flag, no precondition. -/
def music_playing (d : static_data) : Bool :=
  d.music_playing

/-- `music_paused()`: query of the shadow flag, no precondition. -/
def music_paused (d : static_data) : Bool :=
  d.music_paused

/-- `play_music(item, volume, loop)`: asserts spare queue capacity, enqueues a
`MUSIC_PLAY` command with the hardware-scaled volume, and synchronously
updates the shadow state. -/
def play_music (cap : ℕ) (itemId : ℤ) (volume : fixed) (loop : Bool)
    (d : static_data) : Option static_data :=
  if queue_full cap d then none else
  some { d with
    commands := d.commands ++ [command.music_play itemId loop (hw_music_volume volume)],
    music_item_id := itemId,
    music_position := 0,
    music_volume := volume,
    music_playing := true,
    music_paused := false }

/-- `stop_music()`: asserts music playing and spare capacity, enqueues
`MUSIC_STOP`, clears the playing and paused flags. -/
def stop_music (cap : ℕ) (d : static_data) : Option static_data :=
  if ¬ d.music_playing then none else
  if queue_full cap d then none else
  some { d with
    commands := d.commands ++ [command.music_stop],
    music_playing := false,
    music_paused := false }

/-- `pause_music()`: asserts music playing, not already paused, spare
capacity; enqueues `MUSIC_PAUSE` and sets the paused flag. -/
def pause_music (cap : ℕ) (d : static_data) : Option static_data :=
  if ¬ d.music_playing then none else
  if d.music_paused then none else
  if queue_full cap d then none else
  some { d with
    commands := d.commands ++ [command.music_pause],
    music_paused := true }

/-- `resume_music()`: asserts music paused and spare capacity; enqueues
`MUSIC_RESUME` and clears the paused flag. -/
def resume_music (cap : ℕ) (d : static_data) : Option static_data :=
  if ¬ d.music_paused then none else
  if queue_full cap d then none else
  some { d with
    commands := d.commands ++ [command.music_resume],
    music_paused := false }

/-- `music_position()`: asserts music playing, returns the shadow position. -/
def music_position (d : static_data) : Option ℤ :=
  if d.music_playing then some d.music_position else none

/-- `set_music_position(position)`: asserts music playing and spare capacity;
enqueues `MUSIC_SET_POSITION` and records the position in the shadow state. -/
def set_music_position (cap : ℕ) (position : ℤ) (d : static_data) : Option static_data :=
  if ¬ d.music_playing then none else
  if queue_full cap d then none else
  some { d with
    commands := d.commands ++ [command.music_set_position position],
    music_position := position }

/-- `music_volume()`: asserts music playing, returns the shadow volume. -/
def music_volume (d : static_data) : Option fixed :=
  if d.music_playing then some d.music_volume else none

/-- `set_music_volume(volume)`: asserts music playing and spare capacity;
enqueues `MUSIC_SET_VOLUME` with the hardware-scaled volume and records the
unscaled volume in the shadow state. -/
def set_music_volume (cap : ℕ) (volume : fixed) (d : static_data) : Option static_data :=
  if ¬ d.music_playing then none else
  if queue_full cap d then none else
  some { d with
    commands := d.commands ++ [command.music_set_volume (hw_music_volume volume)],
    music_volume := volume }

/-- `dmg_music_playing()`: the DMG data pointer is non-null. -/
def dmg_music_playing (d : static_data) : Bool :=
  d.dmg_music_data.isSome

/-- `dmg_music_paused()`: query of the shadow flag, no precondition. -/
def dmg_music_paused (d : static_data) : Bool :=
  d.dmg_music_paused

/-- `play_dmg_music(item, speed, loop)`: asserts spare capacity; enqueues
`DMG_MUSIC_PLAY`, resets the tracker position, sets both channel volumes to
full scale, records the data pointer and clears the paused flag. -/
def play_dmg_music (cap : ℕ) (dataPtr : ℤ) (speed : ℤ) (loop : Bool)
    (d : static_data) : Option static_data :=
  if queue_full cap d then none else
  some { d with
    commands := d.commands ++ [command.dmg_music_play dataPtr loop speed],
    dmg_music_position := ⟨0, 0⟩,
    dmg_music_left_volume := fixed.of_int 1,
    dmg_music_right_volume := fixed.of_int 1,
    dmg_music_data := some dataPtr,
    dmg_music_paused := false }

/-- `stop_dmg_music()`: asserts DMG music playing and spare capacity; enqueues
`DMG_MUSIC_STOP`, nulls the data pointer, clears the paused flag. -/
def stop_dmg_music (cap : ℕ) (d : static_data) : Option static_data :=
  if d.dmg_music_data.isNone then none else
  if queue_full cap d then none else
  some { d with
    commands := d.commands ++ [command.dmg_music_stop],
    dmg_music_data := none,
    dmg_music_paused := false }

/-- `pause_dmg_music()`: asserts DMG music playing, not already paused, spare
capacity; enqueues `DMG_MUSIC_PAUSE` and sets the paused flag. -/
def pause_dmg_music (cap : ℕ) (d : static_data) : Option static_data :=
  if d.dmg_music_data.isNone then none else
  if d.dmg_music_paused then none else
  if queue_full cap d then none else
  some { d with
    commands := d.commands ++ [command.dmg_music_pause],
    dmg_music_paused := true }

/-- `resume_dmg_music()`: asserts DMG music paused and spare capacity;
enqueues `DMG_MUSIC_RESUME` and clears the paused flag. -/
def resume_dmg_music (cap : ℕ) (d : static_data) : Option static_data :=
  if ¬ d.dmg_music_paused then none else
  if queue_full cap d then none else
  some { d with
    commands := d.commands ++ [command.dmg_music_resume],
    dmg_music_paused := false }

/-- `dmg_music_position()`: asserts DMG music playing, returns the shadow
tracker position. -/
def dmg_music_position (d : static_data) : Option DmgMusicPosition :=
  if d.dmg_music_data.isSome then some d.dmg_music_position else none

/-- `set_dmg_music_position(position)`: asserts DMG music playing and spare
capacity; enqueues `DMG_MUSIC_SET_POSITION` and records the position. -/
def set_dmg_music_position (cap : ℕ) (pattern row : ℤ) (d : static_data) : Option static_data :=
  if d.dmg_music_data.isNone then none else
  if queue_full cap d then none else
  some { d with
    commands := d.commands ++ [command.dmg_music_set_position pattern row],
    dmg_music_position := ⟨pattern, row⟩ }

/-- `set_dmg_music_volume(left, right)`: asserts DMG music playing and spare
capacity; enqueues `DMG_MUSIC_SET_VOLUME` with the hardware-scaled channel
volumes and records the unscaled volumes. -/
def set_dmg_music_volume (cap : ℕ) (left_volume right_volume : fixed)
    (d : static_data) : Option static_data :=
  if d.dmg_music_data.isNone then none else
  if queue_full cap d then none else
  some { d with
    commands := d.commands ++
      [command.dmg_music_set_volume (hw_dmg_music_volume left_volume) (hw_dmg_music_volume right_volume)],
    dmg_music_left_volume := left_volume,
    dmg_music_right_volume := right_volume }

/-- `set_dmg_music_left_volume(left)`: delegates to `set_dmg_music_volume`
with the current right channel volume. -/
def set_dmg_music_left_volume (cap : ℕ) (left_volume : fixed) (d : static_data) : Option static_data :=
  set_dmg_music_volume cap left_volume d.dmg_music_right_volume d

/-- `set_dmg_music_right_volume(right)`: delegates to `set_dmg_music_volume`
with the current left channel volume. -/
def set_dmg_music_right_volume (cap : ℕ) (right_volume : fixed) (d : static_data) : Option static_data :=
  set_dmg_music_volume cap d.dmg_music_left_volume right_volume d

/-- `play_sound(priority, item)` (simple form): asserts spare capacity,
enqueues `SOUND_PLAY`; no shadow-state tracking. -/
def play_sound (cap : ℕ) (priority itemId : ℤ) (d : static_data) : Option static_data :=
  if queue_full cap d then none else
  some { d with commands := d.commands ++ [command.sound_play priority itemId] }

/-- `play_sound(priority, item, volume, speed, panning)` (extended form):
asserts spare capacity, enqueues `SOUND_PLAY_EX` with the hardware-scaled
parameters; no shadow-state tracking. -/
def play_sound_ex (cap : ℕ) (priority itemId : ℤ) (volume speed panning : fixed)
    (d : static_data) : Option static_data :=
  if queue_full cap d then none else
  some { d with commands := d.commands ++
    [command.sound_play_ex priority itemId (hw_sound_volume volume) (hw_sound_speed speed)
      (hw_sound_panning panning)] }

/-- `stop_all_sounds()`: asserts spare capacity, enqueues `SOUND_STOP_ALL`. -/
def stop_all_sounds (cap : ℕ) (d : static_data) : Option static_data :=
  if queue_full cap d then none else
  some { d with commands := d.commands ++ [command.sound_stop_all] }

/-- The hardware-reported values read back by `update()`: whether the driver
reports music playing, the driver music position, and the DMG tracker
pattern/row outputs (a negative pattern signals an invalid report). -/
structure hw_state where
  hw_music_playing : Bool
  hw_music_position : ℤ
  hw_dmg_pattern : ℤ
  hw_dmg_row : ℤ
deriving DecidableEq

/-- The drain loop of `update()`: executes each queued command in order,
appending the resulting driver call to the trace. -/
def execute_commands : List command → List HwCall → List HwCall
  | [], calls => calls
  | c :: rest, calls => execute_commands rest (calls ++ [c.execute])

/-- First re-synchronisation step of `update()`: copy the driver music
position into the shadow state when music is marked playing and the driver
confirms it. -/
def update_resync_music (hw : hw_state) (d : static_data) : static_data :=
  if d.music_playing && hw.hw_music_playing
    then { d with music_position := hw.hw_music_position } else d

/-- Second re-synchronisation step of `update()`: copy the DMG tracker
position when DMG music is active and the reported pattern is non-negative. -/
def update_resync_dmg (hw : hw_state) (d : static_data) : static_data :=
  if d.dmg_music_data.isSome then
    (if 0 ≤ hw.hw_dmg_pattern
      then { d with dmg_music_position := ⟨hw.hw_dmg_pattern, hw.hw_dmg_row⟩ } else d)
  else d

/-- The post-drain re-synchronisation of `update()`: the two steps in
source order. -/
def update_resync (hw : hw_state) (d : static_data) : static_data :=
  update_resync_dmg hw (update_resync_music hw d)

/-- `update()`: calls the driver update hook, drains the queue in FIFO order,
clears it, and re-synchronises the position fields from the hardware report.
Returns the new shadow state and the trace of driver calls. -/
def update (hw : hw_state) (d : static_data) : static_data × List HwCall :=
  (update_resync hw { d with commands := [] },
   execute_commands d.commands [HwCall.update_hw])

/-- `commit()`: delegates to the driver, no shadow-state interaction. -/
def commit (d : static_data) : static_data × List HwCall :=
  (d, [HwCall.commit_hw])

/-- `stop()`: clears the command queue outright, then performs `stop_music()`
only if music is playing, then `stop_all_sounds()`. -/
def stop (cap : ℕ) (d : static_data) : Option static_data :=
  let d0 := { d with commands := ([] : List command) }
  (if d0.music_playing then stop_music cap d0 else some d0).bind (stop_all_sounds cap)

/-- One public mutating operation of the audio manager, for reachability
statements. -/
inductive op where
  | play_music (itemId : ℤ) (volume : fixed) (loop : Bool)
  | stop_music
  | pause_music
  | resume_music
  | set_music_position (position : ℤ)
  | set_music_volume (volume : fixed)
  | play_dmg_music (dataPtr speed : ℤ) (loop : Bool)
  | stop_dmg_music
  | pause_dmg_music
  | resume_dmg_music
  | set_dmg_music_position (pattern row : ℤ)
  | set_dmg_music_volume (left_volume right_volume : fixed)
  | set_dmg_music_left_volume (left_volume : fixed)
  | set_dmg_music_right_volume (right_volume : fixed)
  | play_sound (priority itemId : ℤ)
  | play_sound_ex (priority itemId : ℤ) (volume speed panning : fixed)
  | stop_all_sounds
  | update (hw : hw_state)
  | commit
  | stop

/-- Apply one public operation to the shadow state (`none` = a fatal
assertion fired). -/
def step (cap : ℕ) (o : op) (d : static_data) : Option static_data :=
  match o with
  | op.play_music itemId volume loop => play_music cap itemId volume loop d
  | op.stop_music => stop_music cap d
  | op.pause_music => pause_music cap d
  | op.resume_music => resume_music cap d
  | op.set_music_position position => set_music_position cap position d
  | op.set_music_volume volume => set_music_volume cap volume d
  | op.play_dmg_music dataPtr speed loop => play_dmg_music cap dataPtr speed loop d
  | op.stop_dmg_music => stop_dmg_music cap d
  | op.pause_dmg_music => pause_dmg_music cap d
  | op.resume_dmg_music => resume_dmg_music cap d
  | op.set_dmg_music_position pattern row => set_dmg_music_position cap pattern row d
  | op.set_dmg_music_volume lv rv => set_dmg_music_volume cap lv rv d
  | op.set_dmg_music_left_volume lv => set_dmg_music_left_volume cap lv d
  | op.set_dmg_music_right_volume rv => set_dmg_music_right_volume cap rv d
  | op.play_sound priority itemId => play_sound cap priority itemId d
  | op.play_sound_ex priority itemId volume speed panning =>
      play_sound_ex cap priority itemId volume speed panning d
  | op.stop_all_sounds => stop_all_sounds cap d
  | op.update hw => some (update hw d).1
  | op.commit => some (commit d).1
  | op.stop => stop cap d

/-- Run a sequence of public operations from a starting shadow state. -/
def run (cap : ℕ) (ops : List op) (d : static_data) : Option static_data :=
  match ops with
  | [] => some d
  | o :: rest => (step cap o d).bind (run cap rest)

/-- A shadow state with music marked playing. -/
def playing_state : static_data :=
  { init_data with music_playing := true }

/-- A shadow state with DMG music active. -/
def dmg_active_state : static_data :=
  { init_data with dmg_music_data := some 1 }

/-- A shadow state with both music playing and DMG music active. -/
def sync_state : static_data :=
  { init_data with music_playing := true, dmg_music_data := some 1 }

/-- A shadow state whose command queue is full for capacity 1. -/
def full_state : static_data :=
  { init_data with commands := [command.sound_stop_all] }

/-- A two-operation scenario: start music, then pause it. -/
def ops_ex : List op :=
  [op.play_music 1 (fixed.of_int 1) true, op.pause_music]

lemma execute_commands_eq (cs : List command) (calls : List HwCall) :
    execute_commands cs calls = calls ++ cs.map command.execute := by
  induction cs generalizing calls with
  | nil => simp [execute_commands]
  | cons c rest ih => simp [execute_commands, ih]

lemma update_resync_music_commands (hw : hw_state) (d : static_data) :
    (update_resync_music hw d).commands = d.commands := by
  unfold update_resync_music
  split <;> rfl

lemma update_resync_dmg_commands (hw : hw_state) (d : static_data) :
    (update_resync_dmg hw d).commands = d.commands := by
  unfold update_resync_dmg
  split <;> (try split) <;> rfl

lemma update_resync_music_dmg_fields (hw : hw_state) (d : static_data) :
    (update_resync_music hw d).dmg_music_data = d.dmg_music_data ∧
    (update_resync_music hw d).dmg_music_position = d.dmg_music_position ∧
    (update_resync_music hw d).dmg_music_paused = d.dmg_music_paused := by
  unfold update_resync_music
  split <;> exact ⟨rfl, rfl, rfl⟩

lemma update_resync_dmg_music_fields (hw : hw_state) (d : static_data) :
    (update_resync_dmg hw d).music_position = d.music_position ∧
    (update_resync_dmg hw d).music_playing = d.music_playing ∧
    (update_resync_dmg hw d).music_paused = d.music_paused := by
  unfold update_resync_dmg
  split <;> (try split) <;> exact ⟨rfl, rfl, rfl⟩

lemma update_resync_music_position (hw : hw_state) (d : static_data) :
    (update_resync_music hw d).music_position =
      (if d.music_playing && hw.hw_music_playing then hw.hw_music_position
       else d.music_position) := by
  unfold update_resync_music
  split <;> simp_all

lemma update_resync_dmg_position (hw : hw_state) (d : static_data) :
    (update_resync_dmg hw d).dmg_music_position =
      (if d.dmg_music_data.isSome ∧ 0 ≤ hw.hw_dmg_pattern
       then ⟨hw.hw_dmg_pattern, hw.hw_dmg_row⟩ else d.dmg_music_position) := by
  unfold update_resync_dmg
  split
  · split
    · rename_i h1 h2
      simp [h1, h2]
    · rename_i h1 h2
      have h2' : ¬ (0 ≤ hw.hw_dmg_pattern) := by omega
      simp [h1, h2']
  · rename_i h1
    simp at h1
    simp [h1]

/-- C2: `update()` executes each queued command against the hardware driver
exactly once, in FIFO (insertion) order — the driver-call trace is the update
hook followed by the execution of the queued commands in queue order — and
afterwards the command queue is empty, whatever the commands were. -/
theorem claim_C2 (hw : hw_state) (d : static_data) :
    (update hw d).2 = HwCall.update_hw :: d.commands.map command.execute ∧
    (update hw d).1.commands = [] := by
  constructor
  · show execute_commands d.commands [HwCall.update_hw] = _
    rw [execute_commands_eq]
    rfl
  · show (update_resync hw { d with commands := [] }).commands = _
    rw [update_resync, update_resync_dmg_commands, update_resync_music_commands]

/-- C6: after draining, `update()` overwrites `music_position` with the
driver-reported position exactly when the shadow flag and the driver both
report music playing, and overwrites `dmg_music_position` with the reported
pattern/row exactly when DMG music is active and the reported pattern is
non-negative; a negative report leaves the shadow value unchanged. -/
theorem claim_C6 (hw : hw_state) (d : static_data) :
    (d.music_playing = true → hw.hw_music_playing = true →
      (update hw d).1.music_position = hw.hw_music_position) ∧
    ((d.music_playing && hw.hw_music_playing) = false →
      (update hw d).1.music_position = d.music_position) ∧
    (d.dmg_music_data.isSome = true → 0 ≤ hw.hw_dmg_pattern →
      (update hw d).1.dmg_music_position = ⟨hw.hw_dmg_pattern, hw.hw_dmg_row⟩) ∧
    (d.dmg_music_data.isSome = true → hw.hw_dmg_pattern < 0 →
      (update hw d).1.dmg_music_position = d.dmg_music_position) := by
  have hm : (update hw d).1.music_position =
      (update_resync_music hw { d with commands := [] }).music_position :=
    (update_resync_dmg_music_fields hw _).1
  have hd : (update hw d).1.dmg_music_position =
      (update_resync_dmg hw (update_resync_music hw { d with commands := [] })).dmg_music_position :=
    rfl
  refine ⟨fun h1 h2 => ?_, fun h => ?_, fun h1 h2 => ?_, fun h1 h2 => ?_⟩
  · rw [hm, update_resync_music_position]
    simp [h1, h2]
  · rw [hm, update_resync_music_position]
    simp only [static_data.music_playing] at h ⊢
    simp [h]
  · rw [hd, update_resync_dmg_position]
    have := (update_resync_music_dmg_fields hw { d with commands := [] }).1
    simp only [this]
    simp [h1, h2]
  · rw [hd, update_resync_dmg_position]
    have h3 := (update_resync_music_dmg_fields hw { d with commands := [] }).1
    have h4 := (update_resync_music_dmg_fields hw { d with commands := [] }).2.1
    simp only [h3, h4]
    have : ¬ (0 ≤ hw.hw_dmg_pattern) := by omega
    simp [this]

/-- C6 witness: with music playing, DMG music active and a driver report of
playing music at position 99 and DMG pattern 2, row 5, both shadow position
fields take the reported values. -/
theorem claim_C6_witness :
    (update ⟨true, 99, 2, 5⟩ sync_state).1.music_position = 99 ∧
    (update ⟨true, 99, 2, 5⟩ sync_state).1.dmg_music_position = ⟨2, 5⟩ :=
  ⟨(claim_C6 ⟨true, 99, 2, 5⟩ sync_state).1 rfl rfl,
   (claim_C6 ⟨true, 99, 2, 5⟩ sync_state).2.2.1 rfl (by decide)⟩

/-- C7: the hardware-scale conversions are pure functions satisfying: sound
volume is the 8-fraction-bit rescale clamped to at most 255; sound speed is
the 10-fraction-bit rescale clamped to at most 65535; panning is the
7-fraction-bit rescale of `p + 1` clamped to at most 255, with panning -1
mapping to 0 and panning 1 mapping to 255; DMG channel volume is the
3-fraction-bit rescale. -/
theorem claim_C7 (v s p lv : fixed) :
    hw_sound_volume v = min (fixed_t_data 8 v) 255 ∧
    hw_sound_volume v ≤ 255 ∧
    hw_sound_speed s = min (fixed_t_data 10 s) 65535 ∧
    hw_sound_speed s ≤ 65535 ∧
    hw_sound_panning p = min (fixed_t_data 7 (p.add (fixed.of_int 1))) 255 ∧
    hw_sound_panning p ≤ 255 ∧
    hw_sound_panning (fixed.of_int (-1)) = 0 ∧
    hw_sound_panning (fixed.of_int 1) = 255 ∧
    hw_dmg_music_volume lv = fixed_t_data 3 lv := by
  refine ⟨rfl, min_le_right _ _, rfl, min_le_right _ _, rfl, min_le_right _ _, ?_, ?_, rfl⟩
  · decide
  · decide

/-- C3: with spare queue capacity, immediately after
`play_music(item, v, loop)` and before any `update()`, `music_playing()` is
true, `music_volume()` is exactly `v`, `music_position()` is 0 and
`music_paused()` is false: the shadow state updates are synchronous with the
call. -/
theorem claim_C3 (cap : ℕ) (itemId : ℤ) (v : fixed) (lp : Bool) (d : static_data)
    (h : d.commands.length < cap) :
    (play_music cap itemId v lp d).map music_playing = some true ∧
    (play_music cap itemId v lp d).bind music_volume = some v ∧
    (play_music cap itemId v lp d).bind music_position = some 0 ∧
    (play_music cap itemId v lp d).map music_paused = some false := by
  have hfull : queue_full cap d = false := by
    simp only [queue_full, decide_eq_false_iff_not]
    omega
  simp [play_music, hfull, music_playing, music_volume, music_position, music_paused]

/-- C3 witness: playing item 7 at volume 1 with looping from the initial
state exhibits all four synchronous shadow-state reads. -/
theorem claim_C3_witness :
    (play_music 4 7 (fixed.of_int 1) true init_data).map music_playing = some true ∧
    (play_music 4 7 (fixed.of_int 1) true init_data).bind music_volume = some (fixed.of_int 1) ∧
    (play_music 4 7 (fixed.of_int 1) true init_data).bind music_position = some 0 ∧
    (play_music 4 7 (fixed.of_int 1) true init_data).map music_paused = some false :=
  claim_C3 4 7 (fixed.of_int 1) true init_data (by decide)

/-- C9: when music is playing and the queue is not full,
`set_music_volume(v)` followed by `music_volume()` returns exactly `v` — the
shadow-state value, not the hardware-rescaled one. -/
theorem claim_C9 (cap : ℕ) (v : fixed) (d : static_data) (h1 : d.music_playing = true)
    (h2 : d.commands.length < cap) :
    (set_music_volume cap v d).bind music_volume = some v := by
  have hfull : queue_full cap d = false := by
    simp only [queue_full, decide_eq_false_iff_not]
    omega
  simp [set_music_volume, hfull, h1, music_volume]

/-- C9 witness: from a playing state with an empty queue, the round trip at
volume 1 returns exactly 1. -/
theorem claim_C9_witness :
    (set_music_volume 1 (fixed.of_int 1) playing_state).bind music_volume =
      some (fixed.of_int 1) :=
  claim_C9 1 (fixed.of_int 1) playing_state rfl (by decide)

/-- C4: `stop_music`, `pause_music`, `set_music_volume`, `set_music_position`,
`music_volume` and `music_position` are fatal when music is not playing;
`pause_music` is additionally fatal when already paused and `resume_music` is
fatal when not paused; `pause_music` immediately after `play_music` succeeds
exactly once, and a second consecutive `pause_music` without an intervening
`resume_music` is fatal. -/
theorem claim_C4 (cap : ℕ) (v : fixed) (pos itemId : ℤ) (lp : Bool) (d : static_data) :
    (d.music_playing = false →
      stop_music cap d = none ∧ pause_music cap d = none ∧
      set_music_volume cap v d = none ∧ set_music_position cap pos d = none ∧
      music_volume d = none ∧ music_position d = none) ∧
    (d.music_paused = true → pause_music cap d = none) ∧
    (d.music_paused = false → resume_music cap d = none) ∧
    (d.commands.length + 1 < cap →
      ((play_music cap itemId v lp d).bind (pause_music cap)).isSome = true) ∧
    ((play_music cap itemId v lp d).bind (pause_music cap)).bind (pause_music cap) = none := by
  refine ⟨fun h => ?_, fun h => ?_, fun h => ?_, fun h => ?_, ?_⟩
  · simp [stop_music, pause_music, set_music_volume, set_music_position,
      music_volume, music_position, h]
  · simp [pause_music, h]
  · simp [resume_music, h]
  · have hne : ¬ (d.commands.length = cap) := by omega
    have hne1 : ¬ (d.commands.length + 1 = cap) := by omega
    simp [play_music, pause_music, queue_full, hne, hne1]
  · by_cases hfull : d.commands.length = cap
    · have h0 : play_music cap itemId v lp d = none := by
        simp [play_music, queue_full, hfull]
      simp [h0]
    · have h1 : play_music cap itemId v lp d = some
          { d with
            commands := d.commands ++ [command.music_play itemId lp (hw_music_volume v)],
            music_item_id := itemId, music_position := 0, music_volume := v,
            music_playing := true, music_paused := false } := by
        simp [play_music, queue_full, hfull]
      by_cases hfull1 : d.commands.length + 1 = cap
      · have h2 : pause_music cap
            { d with
              commands := d.commands ++ [command.music_play itemId lp (hw_music_volume v)],
              music_item_id := itemId, music_position := 0, music_volume := v,
              music_playing := true, music_paused := false } = none := by
          simp [pause_music, queue_full, hfull1]
        simp [h1, h2]
      · have h2 : pause_music cap
            { d with
              commands := d.commands ++ [command.music_play itemId lp (hw_music_volume v)],
              music_item_id := itemId, music_position := 0, music_volume := v,
              music_playing := true, music_paused := false } = some
            { d with
              commands := d.commands ++ [command.music_play itemId lp (hw_music_volume v)]
                ++ [command.music_pause],
              music_item_id := itemId, music_position := 0, music_volume := v,
              music_playing := true, music_paused := true } := by
          simp [pause_music, queue_full, hfull1]
        simp [h1, h2, pause_music]

/-- C4 witness: from the initial state, `stop_music` is fatal; after playing,
one pause succeeds and a second consecutive pause is fatal. -/
theorem claim_C4_witness :
    stop_music 4 init_data = none ∧
    ((play_music 4 1 (fixed.of_int 1) true init_data).bind (pause_music 4)).isSome = true ∧
    ((play_music 4 1 (fixed.of_int 1) true init_data).bind (pause_music 4)).bind
      (pause_music 4) = none :=
  ⟨((claim_C4 4 (fixed.of_int 1) 0 1 true init_data).1 rfl).1,
   (claim_C4 4 (fixed.of_int 1) 0 1 true init_data).2.2.2.1 (by decide),
   (claim_C4 4 (fixed.of_int 1) 0 1 true init_data).2.2.2.2⟩

/-- C1 counterexample: from a state where DMG music is active (and music is
not playing), `stop()` succeeds but the shadow state still reports DMG music
playing — `stop()` does not touch the DMG music fields, so it does not leave
the shadow state with "DMG music inactive". -/
theorem claim_C1_counterexample :
    (stop 4 dmg_active_state).map dmg_music_playing = some true := by decide

/-- C1 (amended): for every shadow state, with the statically required
capacity greater than 2, `stop()` succeeds, leaves `music_playing` false, and
leaves the queue holding exactly the trailing `SoundStopAll` command, preceded
by exactly one `MusicStop` command if music had been playing; the DMG shadow
fields are left unchanged. -/
theorem claim_C1_theorem (cap : ℕ) (d : static_data) (h : 2 < cap) :
    (stop cap d).map music_playing = some false ∧
    (stop cap d).map static_data.commands =
      some (if d.music_playing then [command.music_stop, command.sound_stop_all]
            else [command.sound_stop_all]) ∧
    (stop cap d).map static_data.dmg_music_data = some d.dmg_music_data ∧
    (stop cap d).map static_data.dmg_music_paused = some d.dmg_music_paused := by
  have h0 : ¬ ((0 : ℕ) = cap) := by omega
  have h1 : ¬ ((1 : ℕ) = cap) := by omega
  cases hb : d.music_playing
  · simp [stop, stop_music, stop_all_sounds, queue_full, music_playing, hb, h0]
  · simp [stop, stop_music, stop_all_sounds, queue_full, music_playing, hb, h0, h1]

/-- C1 witness: from a state with music playing and capacity 3, `stop()`
leaves music stopped and the queue holding exactly the `MusicStop` and
`SoundStopAll` commands. -/
theorem claim_C1_witness :
    (stop 3 playing_state).map music_playing = some false ∧
    (stop 3 playing_state).map static_data.commands =
      some (if playing_state.music_playing
            then [command.music_stop, command.sound_stop_all]
            else [command.sound_stop_all]) ∧
    (stop 3 playing_state).map static_data.dmg_music_data =
      some playing_state.dmg_music_data ∧
    (stop 3 playing_state).map static_data.dmg_music_paused =
      some playing_state.dmg_music_paused :=
  claim_C1_theorem 3 playing_state (by decide)

/-- C10: with the statically asserted capacity bound
`BN_CFG_AUDIO_MAX_COMMANDS > 2`, `stop()` never triggers the queue-capacity
fatal assertion of its internal `stop_music` and `stop_all_sounds` calls: it
succeeds from every shadow state, and it leaves at most two commands in the
queue it first cleared. -/
theorem claim_C10 (cap : ℕ) (d : static_data) (h : 2 < cap) :
    (stop cap d).isSome = true ∧
    ∀ e, stop cap d = some e → e.commands.length ≤ 2 := by
  have h0 : ¬ ((0 : ℕ) = cap) := by omega
  have h1 : ¬ ((1 : ℕ) = cap) := by omega
  cases hb : d.music_playing
  · constructor
    · simp [stop, stop_all_sounds, queue_full, hb, h0]
    · intro e he
      simp [stop, stop_all_sounds, queue_full, hb, h0] at he
      simp [← he]
  · constructor
    · simp [stop, stop_music, stop_all_sounds, queue_full, hb, h0, h1]
    · intro e he
      simp [stop, stop_music, stop_all_sounds, queue_full, hb, h0, h1] at he
      simp [← he]

/-- C10 witness: with capacity 3 the emergency stop succeeds from the initial
state. -/
theorem claim_C10_witness : (stop 3 init_data).isSome = true :=
  (claim_C10 3 init_data (by decide)).1

/-- The shadow-state invariant: the queue respects its capacity,
`music_paused` implies `music_playing`, and `dmg_music_paused` implies the
DMG music data handle is present. -/
def state_inv (cap : ℕ) (d : static_data) : Prop :=
  d.commands.length ≤ cap ∧
  (d.music_paused = true → d.music_playing = true) ∧
  (d.dmg_music_paused = true → d.dmg_music_data.isSome = true)

lemma play_music_preserves {cap : ℕ} {itemId : ℤ} {v : fixed} {lp : Bool} {d d' : static_data}
    (h : state_inv cap d) (hs : play_music cap itemId v lp d = some d') :
    state_inv cap d' := by
  obtain ⟨hlen, hmp, hdp⟩ := h
  unfold play_music queue_full at hs
  split at hs
  · exact Option.noConfusion hs
  · rename_i hfull
    simp only [decide_eq_true_eq] at hfull
    injection hs with hs
    subst hs
    refine ⟨?_, ?_, ?_⟩
    · simp only [List.length_append, List.length_cons, List.length_nil]
      omega
    · simp
    · simpa using hdp

lemma stop_music_preserves {cap : ℕ} {d d' : static_data}
    (h : state_inv cap d) (hs : stop_music cap d = some d') :
    state_inv cap d' := by
  obtain ⟨hlen, hmp, hdp⟩ := h
  unfold stop_music queue_full at hs
  split at hs
  · exact Option.noConfusion hs
  · split at hs
    · exact Option.noConfusion hs
    · rename_i hplay hfull
      simp only [decide_eq_true_eq] at hfull
      injection hs with hs
      subst hs
      refine ⟨?_, ?_, ?_⟩
      · simp only [List.length_append, List.length_cons, List.length_nil]
        omega
      · simp
      · simpa using hdp

lemma pause_music_preserves {cap : ℕ} {d d' : static_data}
    (h : state_inv cap d) (hs : pause_music cap d = some d') :
    state_inv cap d' := by
  obtain ⟨hlen, hmp, hdp⟩ := h
  unfold pause_music queue_full at hs
  split at hs
  · exact Option.noConfusion hs
  · split at hs
    · exact Option.noConfusion hs
    · split at hs
      · exact Option.noConfusion hs
      · rename_i hplay hpaused hfull
        simp only [decide_eq_true_eq] at hfull
        simp only [Bool.not_eq_true, not_not] at hplay
        injection hs with hs
        subst hs
        refine ⟨?_, ?_, ?_⟩
        · simp only [List.length_append, List.length_cons, List.length_nil]
          omega
        · simpa using hplay
        · simpa using hdp

lemma resume_music_preserves {cap : ℕ} {d d' : static_data}
    (h : state_inv cap d) (hs : resume_music cap d = some d') :
    state_inv cap d' := by
  obtain ⟨hlen, hmp, hdp⟩ := h
  unfold resume_music queue_full at hs
  split at hs
  · exact Option.noConfusion hs
  · split at hs
    · exact Option.noConfusion hs
    · rename_i hpaused hfull
      simp only [decide_eq_true_eq] at hfull
      injection hs with hs
      subst hs
      refine ⟨?_, ?_, ?_⟩
      · simp only [List.length_append, List.length_cons, List.length_nil]
        omega
      · simp
      · simpa using hdp

lemma set_music_position_preserves {cap : ℕ} {pos : ℤ} {d d' : static_data}
    (h : state_inv cap d) (hs : set_music_position cap pos d = some d') :
    state_inv cap d' := by
  obtain ⟨hlen, hmp, hdp⟩ := h
  unfold set_music_position queue_full at hs
  split at hs
  · exact Option.noConfusion hs
  · split at hs
    · exact Option.noConfusion hs
    · rename_i hplay hfull
      simp only [decide_eq_true_eq] at hfull
      injection hs with hs
      subst hs
      refine ⟨?_, ?_, ?_⟩
      · simp only [List.length_append, List.length_cons, List.length_nil]
        omega
      · simpa using hmp
      · simpa using hdp

lemma set_music_volume_preserves {cap : ℕ} {v : fixed} {d d' : static_data}
    (h : state_inv cap d) (hs : set_music_volume cap v d = some d') :
    state_inv cap d' := by
  obtain ⟨hlen, hmp, hdp⟩ := h
  unfold set_music_volume queue_full at hs
  split at hs
  · exact Option.noConfusion hs
  · split at hs
    · exact Option.noConfusion hs
    · rename_i hplay hfull
      simp only [decide_eq_true_eq] at hfull
      injection hs with hs
      subst hs
      refine ⟨?_, ?_, ?_⟩
      · simp only [List.length_append, List.length_cons, List.length_nil]
        omega
      · simpa using hmp
      · simpa using hdp

lemma play_dmg_music_preserves {cap : ℕ} {dataPtr speed : ℤ} {lp : Bool} {d d' : static_data}
    (h : state_inv cap d) (hs : play_dmg_music cap dataPtr speed lp d = some d') :
    state_inv cap d' := by
  obtain ⟨hlen, hmp, hdp⟩ := h
  unfold play_dmg_music queue_full at hs
  split at hs
  · exact Option.noConfusion hs
  · rename_i hfull
    simp only [decide_eq_true_eq] at hfull
    injection hs with hs
    subst hs
    refine ⟨?_, ?_, ?_⟩
    · simp only [List.length_append, List.length_cons, List.length_nil]
      omega
    · simpa using hmp
    · simp

lemma stop_dmg_music_preserves {cap : ℕ} {d d' : static_data}
    (h : state_inv cap d) (hs : stop_dmg_music cap d = some d') :
    state_inv cap d' := by
  obtain ⟨hlen, hmp, hdp⟩ := h
  unfold stop_dmg_music queue_full at hs
  split at hs
  · exact Option.noConfusion hs
  · split at hs
    · exact Option.noConfusion hs
    · rename_i hdata hfull
      simp only [decide_eq_true_eq] at hfull
      injection hs with hs
      subst hs
      refine ⟨?_, ?_, ?_⟩
      · simp only [List.length_append, List.length_cons, List.length_nil]
        omega
      · simpa using hmp
      · simp

lemma pause_dmg_music_preserves {cap : ℕ} {d d' : static_data}
    (h : state_inv cap d) (hs : pause_dmg_music cap d = some d') :
    state_inv cap d' := by
  obtain ⟨hlen, hmp, hdp⟩ := h
  unfold pause_dmg_music queue_full at hs
  split at hs
  · exact Option.noConfusion hs
  · split at hs
    · exact Option.noConfusion hs
    · split at hs
      · exact Option.noConfusion hs
      · rename_i hdata hpaused hfull
        simp only [decide_eq_true_eq] at hfull
        simp only [Option.isNone_iff_eq_none] at hdata
        injection hs with hs
        subst hs
        refine ⟨?_, ?_, ?_⟩
        · simp only [List.length_append, List.length_cons, List.length_nil]
          omega
        · simpa using hmp
        · simpa [Option.isSome_iff_ne_none] using hdata

lemma resume_dmg_music_preserves {cap : ℕ} {d d' : static_data}
    (h : state_inv cap d) (hs : resume_dmg_music cap d = some d') :
    state_inv cap d' := by
  obtain ⟨hlen, hmp, hdp⟩ := h
  unfold resume_dmg_music queue_full at hs
  split at hs
  · exact Option.noConfusion hs
  · split at hs
    · exact Option.noConfusion hs
    · rename_i hpaused hfull
      simp only [decide_eq_true_eq] at hfull
      injection hs with hs
      subst hs
      refine ⟨?_, ?_, ?_⟩
      · simp only [List.length_append, List.length_cons, List.length_nil]
        omega
      · simpa using hmp
      · simp

lemma set_dmg_music_position_preserves {cap : ℕ} {pat row : ℤ} {d d' : static_data}
    (h : state_inv cap d) (hs : set_dmg_music_position cap pat row d = some d') :
    state_inv cap d' := by
  obtain ⟨hlen, hmp, hdp⟩ := h
  unfold set_dmg_music_position queue_full at hs
  split at hs
  · exact Option.noConfusion hs
  · split at hs
    · exact Option.noConfusion hs
    · rename_i hdata hfull
      simp only [decide_eq_true_eq] at hfull
      injection hs with hs
      subst hs
      refine ⟨?_, ?_, ?_⟩
      · simp only [List.length_append, List.length_cons, List.length_nil]
        omega
      · simpa using hmp
      · simpa using hdp

lemma set_dmg_music_volume_preserves {cap : ℕ} {lv rv : fixed} {d d' : static_data}
    (h : state_inv cap d) (hs : set_dmg_music_volume cap lv rv d = some d') :
    state_inv cap d' := by
  obtain ⟨hlen, hmp, hdp⟩ := h
  unfold set_dmg_music_volume queue_full at hs
  split at hs
  · exact Option.noConfusion hs
  · split at hs
    · exact Option.noConfusion hs
    · rename_i hdata hfull
      simp only [decide_eq_true_eq] at hfull
      injection hs with hs
      subst hs
      refine ⟨?_, ?_, ?_⟩
      · simp only [List.length_append, List.length_cons, List.length_nil]
        omega
      · simpa using hmp
      · simpa using hdp

lemma play_sound_preserves {cap : ℕ} {pr itemId : ℤ} {d d' : static_data}
    (h : state_inv cap d) (hs : play_sound cap pr itemId d = some d') :
    state_inv cap d' := by
  obtain ⟨hlen, hmp, hdp⟩ := h
  unfold play_sound queue_full at hs
  split at hs
  · exact Option.noConfusion hs
  · rename_i hfull
    simp only [decide_eq_true_eq] at hfull
    injection hs with hs
    subst hs
    refine ⟨?_, ?_, ?_⟩
    · simp only [List.length_append, List.length_cons, List.length_nil]
      omega
    · simpa using hmp
    · simpa using hdp

lemma play_sound_ex_preserves {cap : ℕ} {pr itemId : ℤ} {v sp pan : fixed} {d d' : static_data}
    (h : state_inv cap d) (hs : play_sound_ex cap pr itemId v sp pan d = some d') :
    state_inv cap d' := by
  obtain ⟨hlen, hmp, hdp⟩ := h
  unfold play_sound_ex queue_full at hs
  split at hs
  · exact Option.noConfusion hs
  · rename_i hfull
    simp only [decide_eq_true_eq] at hfull
    injection hs with hs
    subst hs
    refine ⟨?_, ?_, ?_⟩
    · simp only [List.length_append, List.length_cons, List.length_nil]
      omega
    · simpa using hmp
    · simpa using hdp

lemma stop_all_sounds_preserves {cap : ℕ} {d d' : static_data}
    (h : state_inv cap d) (hs : stop_all_sounds cap d = some d') :
    state_inv cap d' := by
  obtain ⟨hlen, hmp, hdp⟩ := h
  unfold stop_all_sounds queue_full at hs
  split at hs
  · exact Option.noConfusion hs
  · rename_i hfull
    simp only [decide_eq_true_eq] at hfull
    injection hs with hs
    subst hs
    refine ⟨?_, ?_, ?_⟩
    · simp only [List.length_append, List.length_cons, List.length_nil]
      omega
    · simpa using hmp
    · simpa using hdp

lemma update_resync_music_flags (hw : hw_state) (d : static_data) :
    (update_resync_music hw d).music_playing = d.music_playing ∧
    (update_resync_music hw d).music_paused = d.music_paused := by
  unfold update_resync_music
  split <;> exact ⟨rfl, rfl⟩

lemma update_resync_dmg_flags (hw : hw_state) (d : static_data) :
    (update_resync_dmg hw d).dmg_music_data = d.dmg_music_data ∧
    (update_resync_dmg hw d).dmg_music_paused = d.dmg_music_paused := by
  unfold update_resync_dmg
  split <;> (try split) <;> exact ⟨rfl, rfl⟩

lemma update_preserves {cap : ℕ} {hw : hw_state} {d : static_data}
    (h : state_inv cap d) : state_inv cap (update hw d).1 := by
  obtain ⟨hlen, hmp, hdp⟩ := h
  have e0 : (update hw d).1 =
      update_resync_dmg hw (update_resync_music hw { d with commands := [] }) := rfl
  refine ⟨?_, ?_, ?_⟩
  · rw [e0, update_resync_dmg_commands, update_resync_music_commands]
    simp
  · rw [e0]
    intro hp
    rw [(update_resync_dmg_music_fields _ _).2.2] at hp
    rw [(update_resync_music_flags _ _).2] at hp
    rw [(update_resync_dmg_music_fields _ _).2.1, (update_resync_music_flags _ _).1]
    exact hmp hp
  · rw [e0]
    intro hp
    rw [(update_resync_dmg_flags _ _).2] at hp
    rw [(update_resync_music_dmg_fields _ _).2.2] at hp
    rw [(update_resync_dmg_flags _ _).1, (update_resync_music_dmg_fields _ _).1]
    exact hdp hp

lemma stop_preserves {cap : ℕ} {d d' : static_data}
    (h : state_inv cap d) (hs : stop cap d = some d') : state_inv cap d' := by
  have h0 : state_inv cap { d with commands := ([] : List command) } := by
    obtain ⟨hlen, hmp, hdp⟩ := h
    exact ⟨by simp, hmp, hdp⟩
  unfold stop at hs
  rcases Option.bind_eq_some.mp hs with ⟨mid, hmid, hsa⟩
  have hmidinv : state_inv cap mid := by
    split at hmid
    · exact stop_music_preserves h0 hmid
    · cases hmid
      exact h0
  exact stop_all_sounds_preserves hmidinv hsa

lemma step_preserves {cap : ℕ} {o : op} {d d' : static_data}
    (h : state_inv cap d) (hs : step cap o d = some d') : state_inv cap d' := by
  cases o with
  | play_music itemId v lp => exact play_music_preserves h hs
  | stop_music => exact stop_music_preserves h hs
  | pause_music => exact pause_music_preserves h hs
  | resume_music => exact resume_music_preserves h hs
  | set_music_position pos => exact set_music_position_preserves h hs
  | set_music_volume v => exact set_music_volume_preserves h hs
  | play_dmg_music dataPtr speed lp => exact play_dmg_music_preserves h hs
  | stop_dmg_music => exact stop_dmg_music_preserves h hs
  | pause_dmg_music => exact pause_dmg_music_preserves h hs
  | resume_dmg_music => exact resume_dmg_music_preserves h hs
  | set_dmg_music_position pat row => exact set_dmg_music_position_preserves h hs
  | set_dmg_music_volume lv rv => exact set_dmg_music_volume_preserves h hs
  | set_dmg_music_left_volume lv => exact set_dmg_music_volume_preserves h hs
  | set_dmg_music_right_volume rv => exact set_dmg_music_volume_preserves h hs
  | play_sound pr itemId => exact play_sound_preserves h hs
  | play_sound_ex pr itemId v sp pan => exact play_sound_ex_preserves h hs
  | stop_all_sounds => exact stop_all_sounds_preserves h hs
  | update hw =>
      cases hs
      exact update_preserves h
  | commit =>
      cases hs
      exact h
  | stop => exact stop_preserves h hs

lemma run_preserves {cap : ℕ} {ops : List op} {d d' : static_data}
    (h : state_inv cap d) (hr : run cap ops d = some d') : state_inv cap d' := by
  induction ops generalizing d with
  | nil =>
      cases hr
      exact h
  | cons o rest ih =>
      rcases Option.bind_eq_some.mp hr with ⟨e, hsO, hrest⟩
      exact ih (step_preserves h hsO) hrest

lemma init_state_inv (cap : ℕ) : state_inv cap init_data := by
  refine ⟨by simp [init_data], ?_, ?_⟩ <;> simp [init_data]

/-- C5: for every sequence of public operations, in every reachable shadow
state the command queue never exceeds the capacity, and every enqueueing
operation is fatal (a `none` result) when invoked with a full queue. -/
theorem claim_C5 (cap : ℕ) (ops : List op) (d e : static_data)
    (itemId pr pos row spd : ℤ) (lp : Bool) (v lv rv sv sp pan : fixed) :
    (run cap ops init_data = some d → d.commands.length ≤ cap) ∧
    (queue_full cap e = true →
      play_music cap itemId v lp e = none ∧
      stop_music cap e = none ∧
      pause_music cap e = none ∧
      resume_music cap e = none ∧
      set_music_position cap pos e = none ∧
      set_music_volume cap v e = none ∧
      play_dmg_music cap itemId spd lp e = none ∧
      stop_dmg_music cap e = none ∧
      pause_dmg_music cap e = none ∧
      resume_dmg_music cap e = none ∧
      set_dmg_music_position cap pos row e = none ∧
      set_dmg_music_volume cap lv rv e = none ∧
      play_sound cap pr itemId e = none ∧
      play_sound_ex cap pr itemId sv sp pan e = none ∧
      stop_all_sounds cap e = none) := by
  constructor
  · intro hr
    exact (run_preserves (init_state_inv cap) hr).1
  · intro hfull
    simp only [queue_full, decide_eq_true_eq] at hfull
    simp [play_music, stop_music, pause_music, resume_music, set_music_position,
      set_music_volume, play_dmg_music, stop_dmg_music, pause_dmg_music,
      resume_dmg_music, set_dmg_music_position, set_dmg_music_volume, play_sound,
      play_sound_ex, stop_all_sounds, queue_full, hfull]

/-- C5 witness: the empty operation sequence reaches a state within capacity
1, and playing music with a full one-slot queue is fatal. -/
theorem claim_C5_witness :
    init_data.commands.length ≤ 1 ∧
    play_music 1 5 (fixed.of_int 1) true full_state = none :=
  ⟨(claim_C5 1 [] init_data full_state 5 0 0 0 0 true (fixed.of_int 1) ⟨0⟩ ⟨0⟩ ⟨0⟩ ⟨0⟩ ⟨0⟩).1 rfl,
   ((claim_C5 1 [] init_data full_state 5 0 0 0 0 true (fixed.of_int 1) ⟨0⟩ ⟨0⟩ ⟨0⟩ ⟨0⟩ ⟨0⟩).2
     (by decide)).1⟩

/-- C8: in every shadow state reachable by a sequence of public operations
from the initial state, `music_paused` implies `music_playing`, and
`dmg_music_paused` implies the DMG music data handle is present. -/
theorem claim_C8 (cap : ℕ) (ops : List op) (d : static_data)
    (h : run cap ops init_data = some d) :
    (d.music_paused = true → d.music_playing = true) ∧
    (d.dmg_music_paused = true → d.dmg_music_data.isSome = true) :=
  ⟨(run_preserves (init_state_inv cap) h).2.1,
   (run_preserves (init_state_inv cap) h).2.2⟩

/-- C8 witness: after playing then pausing music, the reached state has music
paused, and the invariant yields that it is also playing. -/
theorem claim_C8_witness :
    ((run 4 ops_ex init_data).getD init_data).music_playing = true :=
  (claim_C8 4 ops_ex ((run 4 ops_ex init_data).getD init_data) rfl).1 rfl

end AudioManager
